import Mathlib

/-!
Shallow embedding of `src/app.py` (the workout-plan backend).

The app has three parts:
* process-wide initialization of the model client from the
  `GOOGLE_API_KEY` environment variable (lines 10-32),
* the workout-plan generator `execute_workout` (lines 43-72),
* two Flask handlers: `check` (GET /check, lines 76-93) and
  `execute` (POST /api/execute, lines 97-126).

The remote model call `model.generate_content(...).text` is modelled as an
oracle `Gen : String → String → GenOutcome` taking the query and the system
instruction; its three observable outcomes are success with a text, a
`google.generativeai.errors.APIError`, and any other exception.  JSON values
carry Python truthiness (`if not data`) explicitly; `request.get_json`
returning `None` for a missing or unparseable body is an `Option Json`.
-/

namespace Workout

/-- A parsed JSON value, as Flask's `request.get_json` would produce it:
`null`, booleans, numbers (integers suffice for the claims), strings,
arrays and objects (ordered key/value lists). -/
inductive Json where
  | null : Json
  | bool : Bool → Json
  | num : Int → Json
  | str : String → Json
  | arr : List Json → Json
  | obj : List (String × Json) → Json

/-- Python truthiness of a JSON value: `None`, `False`, `0`, `""`, `[]` and
`{}` are falsy, everything else truthy.  This is what `if not data` and
`if not query` test in `execute`. -/
def Json.truthy : Json → Bool
  | .null => false
  | .bool b => b
  | .num n => n != 0
  | .str s => s != ""
  | .arr xs => !xs.isEmpty
  | .obj kvs => !kvs.isEmpty

/-- `data.get(k)` from line 107: on a dict it returns the value or `None`
for a missing key; on any non-dict value the attribute access raises
`AttributeError`, which in `execute` happens outside the try block and so
propagates to the framework. -/
def Json.pyGet : Json → String → Except String Json
  | .obj kvs, k => .ok ((kvs.lookup k).getD .null)
  | _, _ => .error "AttributeError"

/-- `isinstance(query, str)` from line 109. -/
def Json.isStr : Json → Bool
  | .str _ => true
  | _ => false

/-- The underlying string of a JSON string (only consulted when `isStr`). -/
def Json.strVal : Json → String
  | .str s => s
  | _ => ""

/-- ASCII whitespace stripped by Python's `str.strip()` (space, tab,
newline, carriage return, vertical tab, form feed; the Unicode space
characters Python also strips play no role in the claims). -/
def isPyWhitespace (c : Char) : Bool :=
  c == ' ' || c == '\t' || c == '\n' || c == '\r' || c == '\x0b' || c == '\x0c'

/-- Python's `query.strip()` from line 109: drop leading and trailing
whitespace. -/
def pyStrip (s : String) : String :=
  ⟨((s.data.dropWhile isPyWhitespace).reverse.dropWhile isPyWhitespace).reverse⟩

/-- The hardcoded model name from line 13 of `app.py`. -/
def MODEL_TO_USE : String := "gemini-2.5-flash"

/-- The `genai.GenerativeModel(MODEL_TO_USE)` handle from line 25: a value
bound to one model identifier.  Its behaviour (the remote call) is an
explicit oracle argument below. -/
structure ModelClient where
  model_name : String
deriving DecidableEq

/-- The outcome of one `model.generate_content(query, system_instruction,
tools).text` remote call: the generated text, an `APIError` raised by the
provider, or any other exception. -/
inductive GenOutcome where
  | success : String → GenOutcome
  | apiError : String → GenOutcome
  | otherError : String → GenOutcome
deriving DecidableEq

/-- The remote-call oracle: from the primary content (the query) and the
system instruction to the call's outcome. -/
abbrev Gen := String → String → GenOutcome

/-- A Python exception as classified by `execute`'s handlers:
`google.generativeai.errors.APIError` or anything else. -/
inductive PyExc where
  | apiError : String → PyExc
  | generic : String → PyExc
deriving DecidableEq

/-- The system instruction built at lines 52-64 of `app.py` (an f-string
with no interpolations). -/
def system_prompt : String :=
  "\nYou are a certified personal trainer and exercise physiologist.\n\nTASK:\n1. Read the user\x27s parameters: situation, available equipment, timeframe.\n2. Search online for exercises that best fit the user\x27s situation and equipment, supplementing or replacing the starter pack as needed.\n3. Generate a week-by-week workout plan for the specified timeframe.\n4. For each workout, select exercises feasible with the available equipment and situation, ensuring balanced total-body coverage.\n5. Clearly list each day\x27s exercises, sets, reps (or time), and any necessary instructions or substitutions.\n6. Include guidance on active recovery or cardio for non-workout days.\n7. Include online links for exercise instructions wherever possible using Google Search.\n8. Output only the workout plan, clearly formatted, without extra commentary.\n"

/-- `execute_workout` (lines 43-72): raise a plain `Exception` when the
global `model` is `None`; otherwise call `generate_content` with the query
as primary content and `system_prompt` as the system instruction and return
`response.text` unchanged.  Exceptions propagate to the caller as
`Except.error`. -/
def execute_workout (model : Option ModelClient) (gen : Gen) (query : String) :
    Except PyExc String :=
  match model with
  | none => .error (.generic "AI model failed to initialize due to missing or invalid API key.")
  | some _ =>
    match gen query system_prompt with
    | .success t => .ok t
    | .apiError m => .error (.apiError m)
    | .otherError m => .error (.generic m)

/-- An HTTP outcome of a handler: a (status, JSON body) response from
`jsonify`, or an exception escaping the handler to the framework. -/
inductive HandlerResult where
  | response : Nat → Json → HandlerResult
  | crash : String → HandlerResult

/-- The `/check` handler (lines 76-93). -/
def check (model : Option ModelClient) : HandlerResult :=
  let status_code : Nat := if model.isNone then 503 else 200
  let message : String :=
    if model.isNone then "backend is running, but AI model failed to initialize."
    else "backend is running"
  .response status_code (.obj
    [("status", .str (if status_code == 200 then "ok" else "error")),
     ("message", .str message),
     ("model", .str MODEL_TO_USE)])

/-- The rejection test on `query` at line 109:
`not query or not isinstance(query, str) or not query.strip()`. -/
def queryRejected (query : Json) : Bool :=
  !query.truthy || !query.isStr || pyStrip query.strVal == ""

/-- The `/api/execute` handler (lines 97-126).  `body` is the result of
`request.get_json(silent=True)`: `none` when the request body is missing or
not valid JSON.  Python's single `if not data` test covers both `None` and
falsy JSON values, hence the two branches with the same 400 response. -/
def execute (model : Option ModelClient) (gen : Gen) (body : Option Json) :
    HandlerResult :=
  if model.isNone then
    .response 503 (.obj [("error", .str "AI service not initialized. Check API key configuration.")])
  else
    match body with
    | none => .response 400 (.obj [("error", .str "Invalid or missing JSON payload.")])
    | some data =>
      if !data.truthy then
        .response 400 (.obj [("error", .str "Invalid or missing JSON payload.")])
      else
        match data.pyGet "query" with
        | .error m => .crash m
        | .ok query =>
          if queryRejected query then
            .response 400 (.obj [("error", .str "Missing or empty \"query\" field in the request.")])
          else
            match execute_workout model gen query.strVal with
            | .ok result =>
              .response 200 (.obj [("success", .bool true), ("result", .str result)])
            | .error (.apiError m) =>
              .response 503 (.obj [("error", .str ("AI Service Unavailable or request error: " ++ m))])
            | .error (.generic _) =>
              .response 500 (.obj [("error", .str "An unexpected internal server error occurred.")])

/-- The outcome of `genai.configure(api_key) ; genai.GenerativeModel(...)`
at lines 23-25: a constructed client or an exception. -/
inductive ConstructOutcome where
  | ok : ModelClient → ConstructOutcome
  | fail : String → ConstructOutcome

/-- The startup initialization at lines 10-32: read `GOOGLE_API_KEY`; if it
is unset (or empty, Python truthiness) leave `model = None`; otherwise try
to construct the client, catching any exception and leaving `model = None`
on failure.  The function is total: initialization never raises. -/
def initModel (api_key : Option String) (construct : String → ConstructOutcome) :
    Option ModelClient :=
  match api_key with
  | some key =>
    if key != "" then
      match construct key with
      | .ok c => some c
      | .fail _ => none
    else none
  | none => none

/-- The per-process state visible to the handlers: the global `model`. -/
structure AppState where
  model : Option ModelClient

/-- One incoming HTTP request to either route. -/
inductive Request where
  | checkReq : Request
  | executeReq : Gen → Option Json → Request

/-- Handling one request: the handlers read the global `model` and contain
no assignment to it, so the state passes through unchanged. -/
def handle (st : AppState) : Request → HandlerResult × AppState
  | .checkReq => (check st.model, st)
  | .executeReq gen body => (execute st.model gen body, st)

/-- Serve a sequence of requests, threading the process state. -/
def runRequests (st : AppState) (rs : List Request) : AppState :=
  rs.foldl (fun s r => (handle s r).2) st

/-- `execute_workout` with the unavailable-client guard removed: the body
of its `some` branch. -/
def execute_workout_unguarded (_c : ModelClient) (gen : Gen) (query : String) :
    Except PyExc String :=
  match gen query system_prompt with
  | .success t => .ok t
  | .apiError m => .error (.apiError m)
  | .otherError m => .error (.generic m)

/-- `execute` specialised to an available client and calling the guardless
generator: used to show the guard inside `execute_workout` is unreachable
through the endpoint. -/
def executeWithClient (c : ModelClient) (gen : Gen) (body : Option Json) :
    HandlerResult :=
  match body with
  | none => .response 400 (.obj [("error", .str "Invalid or missing JSON payload.")])
  | some data =>
    if !data.truthy then
      .response 400 (.obj [("error", .str "Invalid or missing JSON payload.")])
    else
      match data.pyGet "query" with
      | .error m => .crash m
      | .ok query =>
        if queryRejected query then
          .response 400 (.obj [("error", .str "Missing or empty \"query\" field in the request.")])
        else
          match execute_workout_unguarded c gen query.strVal with
          | .ok result =>
            .response 200 (.obj [("success", .bool true), ("result", .str result)])
          | .error (.apiError m) =>
            .response 503 (.obj [("error", .str ("AI Service Unavailable or request error: " ++ m))])
          | .error (.generic _) =>
            .response 500 (.obj [("error", .str "An unexpected internal server error occurred.")])

/-- A concrete client for witnesses. -/
def client0 : ModelClient := ⟨MODEL_TO_USE⟩

/-- A concrete oracle returning a fixed plan, for witnesses. -/
def genPlan : Gen := fun _ _ => .success "Week 1: ..."

/-- A concrete oracle echoing the query it was handed, for witnesses. -/
def genEcho : Gen := fun q _ => .success q

/-- A concrete oracle raising a provider error, for witnesses. -/
def genApiErr : Gen := fun _ _ => .apiError "quota exceeded"

/-- A concrete oracle raising a non-provider error, for witnesses. -/
def genOtherErr : Gen := fun _ _ => .otherError "boom"

/-- A client constructor that always throws, for witnesses. -/
def constructFail : String → ConstructOutcome := fun _ => ConstructOutcome.fail "invalid key"

/-- Core unfolding of the valid-query path of `execute`: with an available
client and a body whose `"query"` key holds a string that is not
whitespace-only, the response is exactly the image of the oracle's outcome
at the original query string. -/
theorem execute_valid_core (c : ModelClient) (gen : Gen)
    (kvs : List (String × Json)) (s : String)
    (hq : kvs.lookup "query" = some (Json.str s)) (hs : pyStrip s ≠ "") :
    execute (some c) gen (some (Json.obj kvs)) =
      (match gen s system_prompt with
       | .success t =>
          HandlerResult.response 200 (Json.obj [("success", Json.bool true), ("result", Json.str t)])
       | .apiError m =>
          HandlerResult.response 503
            (Json.obj [("error", Json.str ("AI Service Unavailable or request error: " ++ m))])
       | .otherError _ =>
          HandlerResult.response 500
            (Json.obj [("error", Json.str "An unexpected internal server error occurred.")])) := by
  have hne : kvs.isEmpty = false := by
    cases kvs with
    | nil => simp at hq
    | cons a l => rfl
  have hs0 : s ≠ "" := by
    intro h
    apply hs
    rw [h]
    rfl
  cases hgen : gen s system_prompt with
  | success t =>
      simp [execute, Json.truthy, hne, Json.pyGet, hq, queryRejected, Json.isStr,
            Json.strVal, hs0, hs, execute_workout, hgen]
  | apiError m =>
      simp [execute, Json.truthy, hne, Json.pyGet, hq, queryRejected, Json.isStr,
            Json.strVal, hs0, hs, execute_workout, hgen]
  | otherError m =>
      simp [execute, Json.truthy, hne, Json.pyGet, hq, queryRejected, Json.isStr,
            Json.strVal, hs0, hs, execute_workout, hgen]

/-- Handling one request never changes the process state: neither handler
assigns to the global `model`. -/
theorem handle_preserves_state (st : AppState) (r : Request) : (handle st r).2 = st := by
  cases r <;> rfl

/-- Serving any sequence of requests leaves the process state unchanged. -/
theorem runRequests_preserves (rs : List Request) (st : AppState) :
    runRequests st rs = st := by
  induction rs generalizing st with
  | nil => rfl
  | cons r rs ih =>
      have h : runRequests st (r :: rs) = runRequests (handle st r).2 rs := rfl
      rw [h, handle_preserves_state, ih]

/-- C1: for a valid non-empty string query, with the client available and
the remote call succeeding with text `t`, `POST /api/execute` returns 200
with body `{success: true, result: t}` — the remote call's text verbatim,
with no post-processing. -/
theorem execute_success_returns_verbatim (c : ModelClient) (gen : Gen)
    (kvs : List (String × Json)) (s t : String)
    (hq : kvs.lookup "query" = some (Json.str s)) (hs : pyStrip s ≠ "")
    (ht : gen s system_prompt = GenOutcome.success t) :
    execute (some c) gen (some (Json.obj kvs)) =
      HandlerResult.response 200
        (Json.obj [("success", Json.bool true), ("result", Json.str t)]) := by
  rw [execute_valid_core c gen kvs s hq hs, ht]

/-- Witness for C1 at the concrete query "home, 30 min, dumbbells" and a
remote call returning "Week 1: ...". -/
theorem execute_success_returns_verbatim_witness :
    ([("query", Json.str "home, 30 min, dumbbells")].lookup "query"
       = some (Json.str "home, 30 min, dumbbells")) ∧
    pyStrip "home, 30 min, dumbbells" ≠ "" ∧
    execute (some client0) genPlan
        (some (Json.obj [("query", Json.str "home, 30 min, dumbbells")])) =
      HandlerResult.response 200
        (Json.obj [("success", Json.bool true), ("result", Json.str "Week 1: ...")]) :=
  ⟨rfl, by decide,
   execute_success_returns_verbatim client0 genPlan _ _ "Week 1: ..." rfl (by decide) rfl⟩

/-- C2 counterexample: with an available client, the body `{}` (the empty
JSON object) is falsy in Python, so `if not data` fires first and the
response is 400 with error "Invalid or missing JSON payload.", not the
"Missing or empty query" message the claim states. -/
theorem execute_empty_object_counterexample :
    execute (some client0) genPlan (some (Json.obj [])) =
      HandlerResult.response 400
        (Json.obj [("error", Json.str "Invalid or missing JSON payload.")]) ∧
    ("Invalid or missing JSON payload." : String) ≠
      "Missing or empty \"query\" field in the request." :=
  ⟨rfl, by decide⟩

/-- C2 amended: for every non-empty JSON object body whose `"query"` value
is missing, not a string, or an empty/whitespace-only string, the response
is 400 with the "Missing or empty query" error and the generator is never
invoked (the response is the same for every oracle `gen`); the empty object
`\x7b\x7d` instead yields 400 with "Invalid or missing JSON payload.". -/
theorem execute_nonempty_object_bad_query (c : ModelClient) (gen : Gen)
    (kvs : List (String × Json)) (hne : kvs.isEmpty = false)
    (hq : queryRejected ((kvs.lookup "query").getD Json.null) = true) :
    execute (some c) gen (some (Json.obj kvs)) =
      HandlerResult.response 400
        (Json.obj [("error", Json.str "Missing or empty \"query\" field in the request.")]) := by
  simp [execute, Json.truthy, hne, Json.pyGet, hq]

/-- Witness for the amended C2 at the whitespace-only query "   ". -/
theorem execute_nonempty_object_bad_query_witness :
    (([("query", Json.str "   ")] : List (String × Json)).isEmpty = false) ∧
    queryRejected ((([("query", Json.str "   ")] : List (String × Json)).lookup "query").getD Json.null) = true ∧
    execute (some client0) genPlan (some (Json.obj [("query", Json.str "   ")])) =
      HandlerResult.response 400
        (Json.obj [("error", Json.str "Missing or empty \"query\" field in the request.")]) :=
  ⟨rfl, by decide,
   execute_nonempty_object_bad_query client0 genPlan _ rfl (by decide)⟩

/-- C3: `/check` returns 200 iff the model client is available and 503
otherwise; the body always carries the fixed model identifier
"gemini-2.5-flash", with status "ok" / message "backend is running" in the
200 case and status "error" / message "backend is running, but AI model
failed to initialize." in the 503 case. -/
theorem check_status_iff_available (model : Option ModelClient) :
    check model =
      if model.isSome then
        HandlerResult.response 200 (Json.obj
          [("status", Json.str "ok"),
           ("message", Json.str "backend is running"),
           ("model", Json.str "gemini-2.5-flash")])
      else
        HandlerResult.response 503 (Json.obj
          [("status", Json.str "error"),
           ("message", Json.str "backend is running, but AI model failed to initialize."),
           ("model", Json.str "gemini-2.5-flash")]) := by
  cases model <;> rfl

/-- C4: for a valid query, an `APIError` from the remote call maps to 503
with the error details appended to "AI Service Unavailable or request
error: ", and any other exception maps to 500 with the fixed body. -/
theorem execute_error_classification (c : ModelClient) (gen : Gen)
    (kvs : List (String × Json)) (s m : String)
    (hq : kvs.lookup "query" = some (Json.str s)) (hs : pyStrip s ≠ "") :
    (gen s system_prompt = GenOutcome.apiError m →
      execute (some c) gen (some (Json.obj kvs)) =
        HandlerResult.response 503 (Json.obj
          [("error", Json.str ("AI Service Unavailable or request error: " ++ m))])) ∧
    (gen s system_prompt = GenOutcome.otherError m →
      execute (some c) gen (some (Json.obj kvs)) =
        HandlerResult.response 500 (Json.obj
          [("error", Json.str "An unexpected internal server error occurred.")])) := by
  constructor <;> intro h <;> rw [execute_valid_core c gen kvs s hq hs, h]

/-- Witness for C4: a provider error "quota exceeded" gives 503 with the
details; a non-provider error gives the fixed 500 body. -/
theorem execute_error_classification_witness :
    execute (some client0) genApiErr (some (Json.obj [("query", Json.str "q")])) =
      HandlerResult.response 503 (Json.obj
        [("error", Json.str ("AI Service Unavailable or request error: " ++ "quota exceeded"))]) ∧
    execute (some client0) genOtherErr (some (Json.obj [("query", Json.str "q")])) =
      HandlerResult.response 500 (Json.obj
        [("error", Json.str "An unexpected internal server error occurred.")]) :=
  ⟨(execute_error_classification client0 genApiErr [("query", Json.str "q")] "q"
      "quota exceeded" rfl (by decide)).1 rfl,
   (execute_error_classification client0 genOtherErr [("query", Json.str "q")] "q"
      "boom" rfl (by decide)).2 rfl⟩

/-- C5: with the model client unavailable, `POST /api/execute` returns 503
with the "AI service not initialized" body for every request body — valid,
malformed (`none`) or otherwise — since the unavailability check comes
before any input validation. -/
theorem execute_unavailable_precedes_validation (gen : Gen) (body : Option Json) :
    execute none gen body =
      HandlerResult.response 503 (Json.obj
        [("error", Json.str "AI service not initialized. Check API key configuration.")]) := rfl

/-- C6: with the client available but the body missing or not valid JSON
(`get_json` returned `None`), the response is 400 with "Invalid or missing
JSON payload." for every oracle, so the generator is never invoked. -/
theorem execute_invalid_json_payload (c : ModelClient) (gen : Gen) :
    execute (some c) gen none =
      HandlerResult.response 400
        (Json.obj [("error", Json.str "Invalid or missing JSON payload.")]) := rfl

/-- C7: initialization is total (never raises) and leaves the client unset
both when the credential is absent and when construction throws. -/
theorem initModel_absent_or_failed (construct : String → ConstructOutcome)
    (key msg : String) (h : construct key = ConstructOutcome.fail msg) :
    initModel none construct = none ∧ initModel (some key) construct = none := by
  refine ⟨rfl, ?_⟩
  simp [initModel, h]

/-- Witness for C7 with a constructor that always throws. -/
theorem initModel_absent_or_failed_witness :
    constructFail "k" = ConstructOutcome.fail "invalid key" ∧
    initModel none constructFail = none ∧
    initModel (some "k") constructFail = none :=
  ⟨rfl, initModel_absent_or_failed constructFail "k" "invalid key" rfl⟩

/-- C8: the model client observed by every request of any request sequence
is exactly the one assigned once by initialization: the handlers never
reassign it. -/
theorem model_client_immutable (api_key : Option String)
    (construct : String → ConstructOutcome) (rs : List Request) :
    (runRequests ⟨initModel api_key construct⟩ rs).model = initModel api_key construct := by
  rw [runRequests_preserves]

/-- C9: for every accepted query string `s`, the response is determined by
the oracle's outcome at the original untrimmed `s` (and the fixed system
prompt): stripping is only a validation test, never applied to the
forwarded query. -/
theorem execute_forwards_untrimmed (c : ModelClient) (gen : Gen)
    (kvs : List (String × Json)) (s : String)
    (hq : kvs.lookup "query" = some (Json.str s)) (hs : pyStrip s ≠ "") :
    execute (some c) gen (some (Json.obj kvs)) =
      (match gen s system_prompt with
       | .success t =>
          HandlerResult.response 200 (Json.obj [("success", Json.bool true), ("result", Json.str t)])
       | .apiError m =>
          HandlerResult.response 503
            (Json.obj [("error", Json.str ("AI Service Unavailable or request error: " ++ m))])
       | .otherError _ =>
          HandlerResult.response 500
            (Json.obj [("error", Json.str "An unexpected internal server error occurred.")])) :=
  execute_valid_core c gen kvs s hq hs

/-- Witness for C9: with an echoing oracle, the query "  hi  " with its
surrounding whitespace comes back verbatim in the result. -/
theorem execute_forwards_untrimmed_witness :
    pyStrip "  hi  " ≠ "" ∧
    execute (some client0) genEcho (some (Json.obj [("query", Json.str "  hi  ")])) =
      HandlerResult.response 200
        (Json.obj [("success", Json.bool true), ("result", Json.str "  hi  ")]) :=
  ⟨by decide,
   (execute_forwards_untrimmed client0 genEcho [("query", Json.str "  hi  ")] "  hi  "
      rfl (by decide)).trans rfl⟩

/-- C10: the unavailable-client guard in `execute_workout` raises a generic
exception (the `generic` constructor, not `apiError`); and it is
unreachable through the endpoint: with no client, `execute` returns 503
before calling the generator, and with a client, `execute` behaves exactly
like the variant whose generator has no guard at all. -/
theorem guard_generic_and_unreachable :
    (∀ (gen : Gen) (q : String), execute_workout none gen q =
        Except.error (PyExc.generic
          "AI model failed to initialize due to missing or invalid API key.")) ∧
    (∀ (gen : Gen) (body : Option Json), execute none gen body =
        HandlerResult.response 503 (Json.obj
          [("error", Json.str "AI service not initialized. Check API key configuration.")])) ∧
    (∀ (c : ModelClient) (gen : Gen) (body : Option Json),
        execute (some c) gen body = executeWithClient c gen body) := by
  refine ⟨fun _ _ => rfl, fun _ _ => rfl, fun c gen body => ?_⟩
  cases body with
  | none => rfl
  | some data => rfl

end Workout
